import Mathlib

/-!
# Verification of `generate_app_icons.py`

Shallow embedding of the icon-generation script: the icon renderer
`create_tenex_icon`, the static size table `icon_sizes`, the manifest
builder inside `generate_all_icons`, and the module-level startup
behaviour around the imaging-library import.

Machine integers are modelled as `Nat`.  Python's `int(...)` applied to
the nonnegative float quantities appearing in the script truncates
toward zero, which is the floor; floor of `a + p/q` is `a + p/q` in
`Nat` division and floor of `a - p/q` is `a - ceil(p/q)`, i.e.
`a - (p + q - 1) / q` in `Nat` arithmetic.  (The script computes these
with IEEE doubles; at every magnitude the script can reach, the double
result and the exact rational result truncate to the same integer.)
-/

namespace GenerateAppIcons

/-- An RGBA pixel, one `Nat` per channel (each in `0..255`). -/
structure RGBA where
  r : Nat
  g : Nat
  b : Nat
  a : Nat
deriving DecidableEq

/-- The colour the gradient loop of `create_tenex_icon` paints on row `y`
(source lines 13–17):
`r = int(88 + 50*y/size)`, `g = int(86 + 100*y/size)`,
`b = int(214 - 50*y/size)`, alpha `255`.
The subtraction in the blue channel truncates `214 - 50*y/size`, hence
the `ceil`-style numerator `50*y + (size-1)`. -/
def rowColor (size y : Nat) : RGBA :=
  ⟨88 + 50 * y / size, 86 + 100 * y / size, 214 - (50 * y + (size - 1)) / size, 255⟩

/-- One iteration of the gradient loop: `draw.rectangle([(0,y),(size,y+1)], fill=...)`
paints every column of rows `y` and `y+1` (PIL rectangle coordinates are
inclusive; the x-range `0..size` covers the whole width). -/
def paintStep (size : Nat) (buf : Nat → Nat → RGBA) (y : Nat) : Nat → Nat → RGBA :=
  fun px py => if py = y ∨ py = y + 1 then rowColor size y else buf px py

/-- The pixel buffer after the first `n` iterations of the gradient loop,
starting from the fully transparent image `Image.new('RGBA', ..., (0,0,0,0))`. -/
def gradAux (size n : Nat) : Nat → Nat → RGBA :=
  (List.range n).foldl (paintStep size) (fun _ _ => ⟨0, 0, 0, 0⟩)

/-- The pixel buffer `img` after the whole gradient loop `for y in range(size)`. -/
def gradientImg (size : Nat) : Nat → Nat → RGBA :=
  gradAux size size

theorem gradAux_succ (size n : Nat) :
    gradAux size (n + 1) = paintStep size (gradAux size n) n := by
  unfold gradAux
  rw [List.range_succ, List.foldl_append, List.foldl_cons, List.foldl_nil]

/-- Row `y < n` of the partial gradient buffer holds `rowColor size y`:
row `y` is painted by iteration `y-1` and repainted by iteration `y`,
and no later iteration touches it. -/
theorem gradAux_row (size : Nat) :
    ∀ n x y, y < n → gradAux size n x y = rowColor size y := by
  intro n
  induction n with
  | zero => intro x y h; exact absurd h (Nat.not_lt_zero y)
  | succ m ih =>
    intro x y h
    rw [gradAux_succ]
    unfold paintStep
    by_cases hy : y = m ∨ y = m + 1
    · rcases hy with hy | hy
      · simp [hy]
      · exact absurd h (by omega)
    · rw [if_neg hy]
      exact ih x y (by omega)

/-- The final gradient buffer: row `y` of `img` holds exactly `rowColor size y`. -/
theorem gradientImg_row (size x y : Nat) (h : y < size) :
    gradientImg size x y = rowColor size y :=
  gradAux_row size size x y h

/-- `corner_radius = int(size * 0.2237)` (source line 20). -/
def cornerRadius (size : Nat) : Nat :=
  size * 2237 / 10000

/-- Absolute difference of two naturals, for squared pixel distances. -/
def natAbsDiff (a b : Nat) : Nat :=
  max a b - min a b

/-- Squared Euclidean distance between pixel `(px, py)` and centre `(cx, cy)`. -/
def distSq (cx cy px py : Nat) : Nat :=
  natAbsDiff cx px * natAbsDiff cx px + natAbsDiff cy py * natAbsDiff cy py

/-- Membership of pixel `(x, y)` in the filled rounded rectangle
`mask_draw.rounded_rectangle([(0, 0), (size, size)], corner_radius, fill=255)`
(source line 23), following PIL's decomposition of the fill with
`r = corner_radius` and `d = 2r`:
* if `d = 0` PIL draws the plain rectangle `[(0,0),(size,size)]` instead;
* otherwise a central rectangle `(r+1, 0, size-r-1, size)`, two side
  rectangles `(0, r+1, r, size-r-1)` and `(size-r, r+1, size, size-r-1)`
  (PIL rectangle coordinates are inclusive at both ends), and four
  quarter-disc pieslices whose corner ellipse boxes are
  `(0,0,d,d)`, `(size-d,0,size,d)`, `(size-d,size-d,size,size)` and
  `(0,size-d,d,size)` — i.e. quarter discs of radius `r` centred at
  `(r,r)`, `(size-r,r)`, `(size-r,size-r)` and `(r,size-r)`.
A pieslice pixel is modelled as: inside the corner quadrant of its
centre and at squared distance at most `r²` from the centre. -/
def roundedRectFill (size r x y : Nat) : Prop :=
  if r = 0 then
    x ≤ size ∧ y ≤ size
  else
    (r + 1 ≤ x ∧ x + r + 1 ≤ size) ∨
    (x ≤ r ∧ r + 1 ≤ y ∧ y + r + 1 ≤ size) ∨
    (size - r ≤ x ∧ r + 1 ≤ y ∧ y + r + 1 ≤ size) ∨
    (x ≤ r ∧ y ≤ r ∧ distSq r r x y ≤ r * r) ∨
    (size - r ≤ x ∧ y ≤ r ∧ distSq (size - r) r x y ≤ r * r) ∨
    (size - r ≤ x ∧ size - r ≤ y ∧ distSq (size - r) (size - r) x y ≤ r * r) ∨
    (x ≤ r ∧ size - r ≤ y ∧ distSq r (size - r) x y ≤ r * r)

instance (size r x y : Nat) : Decidable (roundedRectFill size r x y) := by
  unfold roundedRectFill
  exact inferInstance

/-- The `L`-mode mask pixel of
`mask_draw.rounded_rectangle([(0,0),(size,size)], corner_radius, fill=255)`:
`255` inside the rounded rectangle, `0` outside (the mask image is
created filled with `0`). -/
def maskVal (size x y : Nat) : Nat :=
  if roundedRectFill size (cornerRadius size) x y then 255 else 0

/-- A font handle, as produced by `ImageFont.truetype` or
`ImageFont.load_default`. -/
inductive Font where
  | truetype (path : String) (fontSize : Nat)
  | builtin
deriving DecidableEq

/-- The environment supplied by the imaging library to the renderer:
the outcome of attempting `ImageFont.truetype` (which touches the
filesystem and may raise), the `textbbox` metric query, and the
`draw.text` rasteriser that paints a string onto a pixel buffer. -/
structure DrawEnv where
  truetypeLoad : String → Nat → Except String Font
  textbbox : Font → String → Int × Int × Int × Int
  drawText : (Nat → Nat → RGBA) → Int × Int → String → Font → RGBA → Nat → Nat → RGBA

/-- The `try: font = ImageFont.truetype(...) except: font = ImageFont.load_default()`
block (source lines 33–37): any failure of the truetype load is caught
and replaced by the built-in default font. -/
def chooseFont (res : Except String Font) : Font :=
  match res with
  | Except.ok f => f
  | Except.error _ => Font.builtin

/-- A square RGBA image: dimensions plus a pixel function. -/
structure Icon where
  width : Nat
  height : Nat
  pixel : Nat → Nat → RGBA

/-- Shallow embedding of `create_tenex_icon(size)` (source lines 7–52).

The source, in order: builds the gradient buffer `img`; builds the
rounded-rectangle mask; creates `output`, pastes `img` into it and
replaces its alpha band with the mask (`output.paste(img, (0,0));
output.putalpha(mask)` — `paste` copies the pixel data at that moment);
then computes the font (with fallback), measures the text, and draws
`"TX"` twice with `draw`, the drawing handle of `img` — *not* of
`output` — and finally returns `output`.  The two `draw.text` calls and
the metric computations are therefore dead code with respect to the
returned image; they are kept here, bound and discarded exactly as the
source discards them. -/
def create_tenex_icon (size : Nat) (env : DrawEnv) : Icon :=
  let img := gradientImg size
  let output : Icon :=
    { width := size, height := size,
      pixel := fun x y =>
        let p := img x y
        ⟨p.r, p.g, p.b, maskVal size x y⟩ }
  let text := "TX"
  let fontSize := size * 4 / 10
  let font := chooseFont (env.truetypeLoad "/System/Library/Fonts/Helvetica.ttc" fontSize)
  let bbox := env.textbbox font text
  let textWidth : Int := bbox.2.2.1 - bbox.1
  let textHeight : Int := bbox.2.2.2 - bbox.2.1
  let x : Int := Int.fdiv ((size : Int) - textWidth) 2
  let y : Int := Int.fdiv ((size : Int) - textHeight) 2 - (size * 5 / 100 : Nat)
  let shadowOffset : Int := max 1 (size / 100 : Nat)
  let imgShadow := env.drawText img (x + shadowOffset, y + shadowOffset) text font ⟨0, 0, 0, 100⟩
  let _imgFinal := env.drawText imgShadow (x, y) text font ⟨255, 255, 255, 255⟩
  output

/-- The gradient-plus-mask image alone: what `output` holds the moment it
is returned, with no text layer anywhere in its construction. -/
def backgroundIcon (size : Nat) : Icon :=
  { width := size, height := size,
    pixel := fun x y =>
      let p := gradientImg size x y
      ⟨p.r, p.g, p.b, maskVal size x y⟩ }

/-- A concrete environment for evaluating the renderer on closed inputs:
the truetype load fails (as it does on any machine without the macOS
Helvetica file), the metric query returns the zero box, and the text
rasteriser leaves the buffer unchanged. -/
def probeEnv : DrawEnv :=
  { truetypeLoad := fun _ _ => Except.error "unavailable",
    textbbox := fun _ _ => (0, 0, 0, 0),
    drawText := fun buf _ _ _ _ => buf }

/-- Unfolding lemma: a pixel of the returned image is the gradient
colour of its row with the mask value as alpha. -/
theorem create_tenex_icon_pixel (size : Nat) (env : DrawEnv) (x y : Nat) :
    (create_tenex_icon size env).pixel x y =
      ⟨(gradientImg size x y).r, (gradientImg size x y).g, (gradientImg size x y).b,
        maskVal size x y⟩ :=
  rfl

theorem natAbsDiff_right (a b : Nat) (h : a ≤ b) : natAbsDiff a b = b - a := by
  unfold natAbsDiff
  rw [max_eq_right h, min_eq_left h]

/-- `cornerRadius` really is a floor: multiplying back never exceeds the
numerator. -/
theorem cornerRadius_mul_le (size : Nat) : cornerRadius size * 10000 ≤ size * 2237 :=
  Nat.div_mul_le_self (size * 2237) 10000

/-- For any radius `r ≥ 4` (and a board large enough to hold the four
corner arcs, which `4*r < size` guarantees), none of the four corner
pixels of the image lies in the rounded-rectangle fill. -/
theorem roundedRectFill_corners (size r : Nat) (h4 : 4 ≤ r) (hs : 4 * r + 1 ≤ size) :
    ¬ roundedRectFill size r 0 0 ∧ ¬ roundedRectFill size r (size - 1) 0 ∧
    ¬ roundedRectFill size r 0 (size - 1) ∧ ¬ roundedRectFill size r (size - 1) (size - 1) := by
  have hr0 : ¬ (r = 0) := by omega
  have habs0 : natAbsDiff r 0 = r := by unfold natAbsDiff; simp
  have habs1 : natAbsDiff (size - r) (size - 1) = r - 1 := by
    rw [natAbsDiff_right (size - r) (size - 1) (by omega)]
    omega
  have hsqr : 1 ≤ r * r :=
    Nat.one_le_iff_ne_zero.mpr (Nat.mul_ne_zero (by omega) (by omega))
  have hsq1 : 1 ≤ (r - 1) * (r - 1) :=
    Nat.one_le_iff_ne_zero.mpr (Nat.mul_ne_zero (by omega) (by omega))
  have hbig : ¬ ((r - 1) * (r - 1) + (r - 1) * (r - 1) ≤ r * r) := by
    intro hd
    obtain ⟨a, ha⟩ : ∃ a, r = a + 1 := ⟨r - 1, by omega⟩
    subst ha
    simp only [Nat.add_sub_cancel] at hd
    have hexp : (a + 1) * (a + 1) = a * a + 2 * a + 1 := by ring
    rw [hexp] at hd
    have hmul : 3 * a ≤ a * a := Nat.mul_le_mul_right a (by omega)
    omega
  refine ⟨?_, ?_, ?_, ?_⟩ <;> intro hin <;> unfold roundedRectFill distSq at hin <;>
    rw [if_neg hr0] at hin <;> simp only [habs0, habs1] at hin <;>
    rcases hin with h1 | h1 | h1 | h1 | h1 | h1 | h1 <;> omega

/-- Does the character list start with `pat`? -/
def startsWithChars : List Char → List Char → Bool
  | [], _ => true
  | _ :: _, [] => false
  | a :: as, b :: bs => a = b && startsWithChars as bs

/-- Does the character list contain `pat` as a contiguous run? -/
def containsChars (pat : List Char) : List Char → Bool
  | [] => startsWithChars pat []
  | c :: rest => startsWithChars pat (c :: rest) || containsChars pat rest

/-- Python's substring test `pat in s`. -/
def strContains (pat s : String) : Bool :=
  containsChars pat.data s.data

/-- Fueled worker for `pyReplace`: at each position, if the pattern
matches, emit the replacement and skip past the match, else keep the
character; the fuel is the length of the scanned list, which bounds the
number of steps. -/
def replAux (pat repl : List Char) : Nat → List Char → List Char
  | 0, s => s
  | _ + 1, [] => []
  | fuel + 1, c :: rest =>
    if startsWithChars pat (c :: rest) && pat ≠ [] then
      repl ++ replAux pat repl fuel (List.drop (pat.length - 1) rest)
    else
      c :: replAux pat repl fuel rest

/-- Python's `s.replace(pat, repl)` (all occurrences, left to right) for
a nonempty pattern. -/
def pyReplace (s pat repl : String) : String :=
  String.mk (replAux pat.data repl.data s.data.length s.data)

/-- The idiom classification of `generate_all_icons` (source lines 117–122):
`if "iphone" in filename ... elif "ipad" in filename ... else "ios-marketing"`. -/
def idiomFor (filename : String) : String :=
  if strContains "iphone" filename then "iphone"
  else if strContains "ipad" filename then "ipad"
  else "ios-marketing"

/-- The scale classification (source lines 124–129):
`if "@3x" in filename ... elif "@2x" in filename ... else "1x"`. -/
def scaleFor (filename : String) : String :=
  if strContains "@3x" filename then "3x"
  else if strContains "@2x" filename then "2x"
  else "1x"

/-- One record of the `images` list of `Contents.json`. -/
structure ImageEntry where
  filename : String
  idiom : String
  scale : String
  sizeStr : String
deriving DecidableEq

/-- The record the loop body appends for one size-table entry
(source lines 110–142): filename `f"{filename}.png"`, idiom and scale as
classified, `pt_size = scale_info.replace("pt", "")`, size
`f"{pt_size}x{pt_size}"`. -/
def imageEntry (filename : String) (scaleInfo : String) : ImageEntry :=
  let ptSize := pyReplace scaleInfo "pt" ""
  ⟨filename ++ ".png", idiomFor filename, scaleFor filename, ptSize ++ "x" ++ ptSize⟩

/-- The static size table `icon_sizes` (source lines 57–95), in insertion
order; Python 3.7+ dicts iterate in insertion order and all 18 keys are
distinct. -/
def icon_sizes : List (String × Nat × String) :=
  [("iphone-notification@2x", 40, "20pt"),
   ("iphone-notification@3x", 60, "20pt"),
   ("iphone-settings@2x", 58, "29pt"),
   ("iphone-settings@3x", 87, "29pt"),
   ("iphone-spotlight@2x", 80, "40pt"),
   ("iphone-spotlight@3x", 120, "40pt"),
   ("iphone-app@2x", 120, "60pt"),
   ("iphone-app@3x", 180, "60pt"),
   ("ipad-notification@1x", 20, "20pt"),
   ("ipad-notification@2x", 40, "20pt"),
   ("ipad-settings@1x", 29, "29pt"),
   ("ipad-settings@2x", 58, "29pt"),
   ("ipad-spotlight@1x", 40, "40pt"),
   ("ipad-spotlight@2x", 80, "40pt"),
   ("ipad-app@1x", 76, "76pt"),
   ("ipad-app@2x", 152, "76pt"),
   ("ipad-pro-app@2x", 167, "83.5pt"),
   ("app-store", 1024, "1024pt")]

/-- The hand-appended store-listing record (source lines 145–150). -/
def appStoreExtra : ImageEntry :=
  ⟨"app-store.png", "ios-marketing", "1x", "1024x1024"⟩

/-- The `images` list of the serialized `Contents.json` after a complete
run of `generate_all_icons`: one record per size-table entry, in table
order, followed by the hand-appended store-listing record. -/
def contentsImages : List ImageEntry :=
  (icon_sizes.map fun e => imageEntry e.1 e.2.2) ++ [appStoreExtra]

/-- Outcome of one run of the script process. -/
structure RunResult where
  /-- Process exit status. -/
  exitCode : Nat
  /-- Lines printed to standard output. -/
  stdoutLines : List String
  /-- Whether an uncaught-exception traceback went to standard error. -/
  tracebackOnStderr : Bool
  /-- How many icon files were written. -/
  iconsWritten : Nat

/-- Module-level behaviour of the script (source lines 1–169),
parametrised by whether the Pillow package is importable.

The module body executes top to bottom: line 4,
`from PIL import Image, ImageDraw, ImageFont`, runs *before* the
`if __name__ == "__main__":` guard of line 161.  When Pillow is absent
that import raises an uncaught `ImportError`: the interpreter prints a
traceback to standard error and exits with status 1, and the
`try/except ImportError` of lines 163–167 (which would print
`"Error: Pillow library is required. ..."` to standard output and call
`exit(1)`) is never reached.  When Pillow is present, the guarded
re-import succeeds and `generate_all_icons` runs to completion. -/
def runScript (pillowAvailable : Bool) : RunResult :=
  if pillowAvailable = false then
    { exitCode := 1, stdoutLines := [], tracebackOnStderr := true, iconsWritten := 0 }
  else
    { exitCode := 0,
      stdoutLines :=
        (icon_sizes.map fun e =>
          "Generating " ++ e.1 ++ ".png (" ++ toString e.2.1 ++ "x" ++ toString e.2.1 ++ ")") ++
        ["", "All icons generated successfully!",
         "Icons saved to: /Users/pablofernandez/projects/TENEX-kf5rtr/tenex-ios/TENEX/Resources/Assets.xcassets/AppIcon.appiconset",
         "Contents.json updated"],
      tracebackOnStderr := false,
      iconsWritten := icon_sizes.length }

/-! ## Claim theorems -/

/-- C1: the claim says the returned pixel buffer contains the "TX" label
drawn twice (shadow and foreground).  It does not: `output` is pasted
from the gradient buffer *before* the two `draw.text` calls, which paint
onto `img`, so the returned image is exactly the gradient-plus-mask
background and is independent of the whole text environment (font
loading, metrics, rasteriser). -/
theorem C1_output_contains_no_text (size : Nat) (env env2 : DrawEnv) :
    create_tenex_icon size env = backgroundIcon size ∧
    create_tenex_icon size env = create_tenex_icon size env2 :=
  ⟨rfl, rfl⟩

/-- C2 counterexample: at size 1024, the bottom pixel row (y = 1023) of
the rendered icon has colour (137, 185, 164), not the gradient endpoint
(138, 186, 164) claimed. -/
theorem C2_bottom_row_not_endpoint :
    ((create_tenex_icon 1024 probeEnv).pixel 512 1023).r = 137 ∧
    ((create_tenex_icon 1024 probeEnv).pixel 512 1023).g = 185 ∧
    ((create_tenex_icon 1024 probeEnv).pixel 512 1023).b = 164 ∧
    ¬ (((create_tenex_icon 1024 probeEnv).pixel 512 1023).r = 138 ∧
       ((create_tenex_icon 1024 probeEnv).pixel 512 1023).g = 186 ∧
       ((create_tenex_icon 1024 probeEnv).pixel 512 1023).b = 164) := by
  simp only [create_tenex_icon_pixel]
  rw [gradientImg_row 1024 512 1023 (by omega)]
  decide

/-- C2 amended: for every positive size, the top pixel row is exactly
the top endpoint (88, 86, 214), and the bottom pixel row carries the
interpolation formula at `y = size - 1`, whose red channel never reaches
the bottom endpoint value 138. -/
theorem C2_gradient_rows (size : Nat) (env : DrawEnv) (x : Nat) (h : 0 < size) :
    ((create_tenex_icon size env).pixel x 0).r = 88 ∧
    ((create_tenex_icon size env).pixel x 0).g = 86 ∧
    ((create_tenex_icon size env).pixel x 0).b = 214 ∧
    ((create_tenex_icon size env).pixel x (size - 1)).r = 88 + 50 * (size - 1) / size ∧
    ((create_tenex_icon size env).pixel x (size - 1)).r ≠ 138 := by
  simp only [create_tenex_icon_pixel]
  rw [gradientImg_row size x 0 h, gradientImg_row size x (size - 1) (by omega)]
  unfold rowColor
  refine ⟨by simp, by simp, ?_, rfl, ?_⟩
  · simp [Nat.div_eq_of_lt (show size - 1 < size by omega)]
  · have hlt : 50 * (size - 1) / size < 50 := Nat.div_lt_of_lt_mul (by omega)
    show 88 + 50 * (size - 1) / size ≠ 138
    omega

/-- C2 witness: the amended row theorem applied at size 1024. -/
theorem C2_gradient_rows_witness :
    0 < 1024 ∧
    (((create_tenex_icon 1024 probeEnv).pixel 512 0).r = 88 ∧
     ((create_tenex_icon 1024 probeEnv).pixel 512 0).g = 86 ∧
     ((create_tenex_icon 1024 probeEnv).pixel 512 0).b = 214 ∧
     ((create_tenex_icon 1024 probeEnv).pixel 512 (1024 - 1)).r = 88 + 50 * (1024 - 1) / 1024 ∧
     ((create_tenex_icon 1024 probeEnv).pixel 512 (1024 - 1)).r ≠ 138) :=
  ⟨by decide, C2_gradient_rows 1024 probeEnv 512 (by decide)⟩

/-- C3: the claim says a missing imaging dependency is reported by a
message on standard output before the process exits non-zero.  The
process does exit with status 1 before any icon generation, but the
failure is the uncaught `ImportError` of the top-level import on line 4,
which prints a traceback to standard error; the `__main__` handler that
would print the friendly message to standard output is never reached, so
standard output stays empty. -/
theorem C3_missing_pillow_silent_on_stdout :
    runScript false =
      { exitCode := 1, stdoutLines := [], tracebackOnStderr := true, iconsWritten := 0 } ∧
    (runScript false).exitCode ≠ 0 ∧
    (runScript false).stdoutLines = [] ∧
    (runScript false).iconsWritten = 0 :=
  ⟨rfl, by decide, rfl, rfl⟩

/-- C4: the manifest holds one record per size-table entry plus the
hand-appended store-listing record, so exactly two records carry the
filename "app-store.png", and they are identical: idiom "ios-marketing",
scale "1x", size "1024x1024". -/
theorem C4_appstore_record_duplicated :
    contentsImages.length = icon_sizes.length + 1 ∧
    (contentsImages.filter fun e => e.filename = "app-store.png") =
      [⟨"app-store.png", "ios-marketing", "1x", "1024x1024"⟩,
       ⟨"app-store.png", "ios-marketing", "1x", "1024x1024"⟩] := by
  decide

/-- C5 counterexample: the static size table has 18 entries, not 17, so
the manifest holds 19 records, not 18. -/
theorem C5_table_is_18_entries :
    icon_sizes.length = 18 ∧ contentsImages.length = 19 ∧
    ¬ (icon_sizes.length = 17 ∧ contentsImages.length = 18) := by
  decide

/-- C5 amended: the manifest record count equals the size-table entry
count plus exactly one; with the 18-entry table in the source this is 19
records. -/
theorem C5_record_count :
    contentsImages.length = icon_sizes.length + 1 ∧
    icon_sizes.length = 18 ∧ contentsImages.length = 19 := by
  decide

/-- C6: every record of the manifest obeys the idiom classification: a
filename containing "iphone" gets idiom "iphone", one containing "ipad"
gets idiom "ipad", and anything else gets "ios-marketing". -/
theorem C6_idiom_classification :
    (contentsImages.all fun e =>
      (!(strContains "iphone" e.filename) || e.idiom == "iphone") &&
      (!(strContains "ipad" e.filename) || e.idiom == "ipad") &&
      (strContains "iphone" e.filename || strContains "ipad" e.filename ||
        e.idiom == "ios-marketing")) = true := by
  decide

/-- C7: the size-table entry ("iphone-app@3x", 180, "60pt") is in the
table, the renderer called on 180 yields a 180×180 image, and the
manifest record built for it is exactly
{filename "iphone-app@3x.png", idiom "iphone", scale "3x", size "60x60"}. -/
theorem C7_iphone_app_3x :
    ("iphone-app@3x", 180, "60pt") ∈ icon_sizes ∧
    (create_tenex_icon 180 probeEnv).width = 180 ∧
    (create_tenex_icon 180 probeEnv).height = 180 ∧
    imageEntry "iphone-app@3x" "60pt" =
      ⟨"iphone-app@3x.png", "iphone", "3x", "60x60"⟩ ∧
    imageEntry "iphone-app@3x" "60pt" ∈ contentsImages := by
  decide

/-- C8 counterexample: at size 5 the radius int(5*0.2237) = 1 is
positive, yet the corner pixel (0, 4) is inside the bottom-left corner
pieslice (it is the leftmost point of that corner arc), so its alpha is
255, not 0. -/
theorem C8_small_radius_corner_opaque :
    0 < cornerRadius 5 ∧
    ((create_tenex_icon 5 probeEnv).pixel 0 (5 - 1)).a = 255 ∧
    ¬ (((create_tenex_icon 5 probeEnv).pixel 0 0).a = 0 ∧
       ((create_tenex_icon 5 probeEnv).pixel (5 - 1) 0).a = 0 ∧
       ((create_tenex_icon 5 probeEnv).pixel 0 (5 - 1)).a = 0 ∧
       ((create_tenex_icon 5 probeEnv).pixel (5 - 1) (5 - 1)).a = 0) := by
  decide

/-- C8 amended: whenever the computed radius is at least 4 — which holds
for every size of the static table, all of which are at least 20 — the
four corner pixels of the rendered image are fully transparent. -/
theorem C8_corners_transparent (size : Nat) (env : DrawEnv) (h : 4 ≤ cornerRadius size) :
    ((create_tenex_icon size env).pixel 0 0).a = 0 ∧
    ((create_tenex_icon size env).pixel (size - 1) 0).a = 0 ∧
    ((create_tenex_icon size env).pixel 0 (size - 1)).a = 0 ∧
    ((create_tenex_icon size env).pixel (size - 1) (size - 1)).a = 0 := by
  have h10 := cornerRadius_mul_le size
  have hcorners := roundedRectFill_corners size (cornerRadius size) h (by omega)
  simp only [create_tenex_icon_pixel]
  unfold maskVal
  rw [if_neg hcorners.1, if_neg hcorners.2.1, if_neg hcorners.2.2.1, if_neg hcorners.2.2.2]
  exact ⟨rfl, rfl, rfl, rfl⟩

/-- C8 witness: the corner-transparency theorem applied at size 1024
(radius 229). -/
theorem C8_corners_transparent_witness :
    4 ≤ cornerRadius 1024 ∧
    (((create_tenex_icon 1024 probeEnv).pixel 0 0).a = 0 ∧
     ((create_tenex_icon 1024 probeEnv).pixel (1024 - 1) 0).a = 0 ∧
     ((create_tenex_icon 1024 probeEnv).pixel 0 (1024 - 1)).a = 0 ∧
     ((create_tenex_icon 1024 probeEnv).pixel (1024 - 1) (1024 - 1)).a = 0) :=
  ⟨by decide, C8_corners_transparent 1024 probeEnv (by decide)⟩

/-- C9: any failure of the truetype font load is caught locally: the
chosen font is the built-in default and the renderer still returns a
size×size image; no error reaches the caller (the embedding of the
renderer is a total function). -/
theorem C9_font_fallback (size : Nat) (env : DrawEnv) (e : String)
    (h : env.truetypeLoad "/System/Library/Fonts/Helvetica.ttc" (size * 4 / 10) =
      Except.error e) :
    chooseFont (env.truetypeLoad "/System/Library/Fonts/Helvetica.ttc" (size * 4 / 10)) =
      Font.builtin ∧
    (create_tenex_icon size env).width = size ∧
    (create_tenex_icon size env).height = size := by
  refine ⟨?_, rfl, rfl⟩
  rw [h]
  rfl

/-- C9 witness: the fallback theorem applied at size 64 in an
environment whose truetype load fails. -/
theorem C9_font_fallback_witness :
    probeEnv.truetypeLoad "/System/Library/Fonts/Helvetica.ttc" (64 * 4 / 10) =
      Except.error "unavailable" ∧
    (chooseFont (probeEnv.truetypeLoad "/System/Library/Fonts/Helvetica.ttc" (64 * 4 / 10)) =
      Font.builtin ∧
     (create_tenex_icon 64 probeEnv).width = 64 ∧
     (create_tenex_icon 64 probeEnv).height = 64) :=
  ⟨rfl, C9_font_fallback 64 probeEnv "unavailable" rfl⟩

/-- C10: the "iphone" substring test is evaluated first, so a filename
containing both "iphone" and "ipad" is classified with idiom "iphone". -/
theorem C10_iphone_precedence (s : String)
    (h1 : strContains "iphone" s = true) (h2 : strContains "ipad" s = true) :
    idiomFor s = "iphone" := by
  unfold idiomFor
  rw [h1]
  rfl

/-- C10 witness: the precedence theorem applied to a name containing
both device keywords. -/
theorem C10_iphone_precedence_witness :
    strContains "iphone" "iphone-ipad@2x" = true ∧
    strContains "ipad" "iphone-ipad@2x" = true ∧
    idiomFor "iphone-ipad@2x" = "iphone" :=
  ⟨by decide, by decide, C10_iphone_precedence "iphone-ipad@2x" (by decide) (by decide)⟩

end GenerateAppIcons
